import Mathlib

/-!
Shallow embedding of the Training Management System
(`src/main.py`) — the Enrollment & Certification Consistency Engine.

The persistent SQLite store is modelled as an explicit `DBState` record of
table contents; each manager operation of the source becomes a pure Lean
function from a `DBState` (plus the values the source draws from the
environment: `datetime.now()` timestamps and the `secrets.token_hex`
verification code, passed as explicit string parameters) to a result paired
with the successor state.  `execute_query` swallows every `sqlite3.Error`
(printing and returning `None`), so an INSERT that violates a UNIQUE
constraint is modelled as the operation returning `none` with the state
unchanged.  SQLite enforces the UNIQUE constraints of the schema; foreign
keys are NOT enforced because the source never issues
`PRAGMA foreign_keys = ON`.  The `activity_logs` table and `log_activity`
are omitted: no claim concerns the audit log and it has no effect on any
other table.  Python floats for progress/grade are idealised as `ℚ`.
-/

namespace TMS

/-- Row of the `students` table (fields used by the verified operations). -/
structure Student where
  id : Nat
  name : String
  email : String
  deriving DecidableEq

/-- Row of the `courses` table (fields used by the verified operations). -/
structure Course where
  id : Nat
  title : String
  max_students : Int
  is_active : Bool
  deriving DecidableEq

/-- Row of the `enrollments` table. -/
structure Enrollment where
  id : Nat
  student_id : Nat
  course_id : Nat
  enrollment_date : String
  expected_completion : Option String
  progress : ℚ
  status : String
  grade : Option ℚ
  deriving DecidableEq

/-- Row of the `certifications` table. -/
structure Certification where
  id : Nat
  enrollment_id : Nat
  certificate_number : String
  issue_date : String
  verification_code : String
  issued_by : String
  deriving DecidableEq

/-- The whole persistent store.  The `next…Id` counters model the
AUTOINCREMENT primary keys of the tables whose fresh ids the source uses
(`cursor.lastrowid`). -/
structure DBState where
  students : List Student
  courses : List Course
  enrollments : List Enrollment
  certifications : List Certification
  nextEnrollmentId : Nat
  nextCertId : Nat
  deriving DecidableEq

/-! ## Validator (src/main.py, class `Validator`) -/

/-- Source: `Validator.validate_progress` — `0.0 <= progress <= 100.0`. -/
def validate_progress (progress : ℚ) : Bool :=
  decide ((0 : ℚ) ≤ progress) && decide (progress ≤ (100 : ℚ))

/-- Source: `Validator.validate_grade` — `0.0 <= grade <= 100.0`. -/
def validate_grade (grade : ℚ) : Bool :=
  decide ((0 : ℚ) ≤ grade) && decide (grade ≤ (100 : ℚ))

/-- Source: `re.sub(r'[^0-9]', '', cpf)` followed by reading each character
as a decimal digit (`int(cpf[i])`): the digit values of the string, non-digit
characters removed. -/
def cpfStrip (s : String) : List Nat :=
  (s.data.filter (fun c => c.isDigit)).map (fun c => c.toNat - 48)

/-- Source: first CPF check digit — `sum(int(cpf[i]) * (10 - i) for i in
range(9))`, then `(sum_val * 10 % 11) % 10`. -/
def cpfDigit1 (ds : List Nat) : Nat :=
  ((List.range 9).map (fun i => ds.getD i 0 * (10 - i))).sum * 10 % 11 % 10

/-- Source: second CPF check digit — `sum(int(cpf[i]) * (11 - i) for i in
range(10))`, then `(sum_val * 10 % 11) % 10`. -/
def cpfDigit2 (ds : List Nat) : Nat :=
  ((List.range 10).map (fun i => ds.getD i 0 * (11 - i))).sum * 10 % 11 % 10

/-- Source: `Validator.validate_cpf`.  After stripping non-digits the string
is rejected when its length is not 11 or it equals its first character
repeated 11 times (`cpf == cpf[0] * 11`, i.e. all digits identical); then the
two check digits are recomputed and compared with positions 9 and 10. -/
def validate_cpf (s : String) : Bool :=
  let ds := cpfStrip s
  if ds.length ≠ 11 || ds.all (fun d => d == ds.headD 0) then false
  else if ds.getD 9 0 ≠ cpfDigit1 ds then false
  else ds.getD 10 0 == cpfDigit2 ds

/-! ## CourseManager (src/main.py) -/

/-- Source: `CourseManager.get_course` — `SELECT * FROM courses WHERE id = ?`
(first row, if any). -/
def get_course (s : DBState) (course_id : Nat) : Option Course :=
  s.courses.find? (fun c => c.id == course_id)

/-- Source: the counting subquery of `CourseManager.get_available_seats` —
`SELECT COUNT(*) FROM enrollments WHERE course_id = ? AND status IN
('enrolled', 'in_progress')`. -/
def activeEnrollmentCount (s : DBState) (course_id : Nat) : Nat :=
  (s.enrollments.filter (fun e =>
    e.course_id == course_id &&
      (e.status == "enrolled" || e.status == "in_progress"))).length

/-- Source: `CourseManager.get_available_seats` — returns `0` when the course
does not exist, else `max(0, course.max_students - enrolled)`. -/
def get_available_seats (s : DBState) (course_id : Nat) : Int :=
  match get_course s course_id with
  | none => 0
  | some course => max 0 (course.max_students - (activeEnrollmentCount s course_id : Int))

/-! ## EnrollmentManager (src/main.py) -/

/-- Source: the UNIQUE(student_id, course_id) constraint of the
`enrollments` table — true when a row for the pair already exists, in which
case the INSERT of `enroll_student` raises `sqlite3.IntegrityError`, which
`execute_query` swallows into `None`. -/
def hasEnrollmentPair (s : DBState) (student_id course_id : Nat) : Bool :=
  s.enrollments.any (fun e => e.student_id == student_id && e.course_id == course_id)

/-- Source: `EnrollmentManager.enroll_student`.  Checks
`get_available_seats(course_id) <= 0` first (returning `None`), then INSERTs
a row with status `'enrolled'` and progress `0`; a UNIQUE-pair violation
makes the INSERT fail and the call return `None` with the store unchanged.
`now` and `expd` stand for `datetime.now().isoformat()` and
`(datetime.now() + timedelta(days=90)).isoformat()`. -/
def enroll_student (s : DBState) (student_id course_id : Nat)
    (now expd : String) : Option Nat × DBState :=
  if get_available_seats s course_id ≤ 0 then (none, s)
  else if hasEnrollmentPair s student_id course_id then (none, s)
  else
    let e : Enrollment :=
      { id := s.nextEnrollmentId, student_id := student_id, course_id := course_id,
        enrollment_date := now, expected_completion := some expd,
        progress := 0, status := "enrolled", grade := none }
    (some e.id,
      { s with enrollments := s.enrollments ++ [e],
               nextEnrollmentId := s.nextEnrollmentId + 1 })

/-- Source: `EnrollmentManager.update_progress`.  Rejects (returning
`False`, no write) when `validate_progress` fails; otherwise derives
`status = 'completed'` when `progress >= 100`, else `'in_progress'`, and
issues `UPDATE enrollments SET progress = ?, status = ? WHERE id = ?`,
returning `True` exactly when `rowcount > 0`, i.e. a row with that id
exists. -/
def update_progress (s : DBState) (enrollment_id : Nat) (progress : ℚ) :
    Bool × DBState :=
  if !validate_progress progress then (false, s)
  else
    let status := if (100 : ℚ) ≤ progress then "completed" else "in_progress"
    if s.enrollments.any (fun e => e.id == enrollment_id) then
      (true,
        { s with enrollments := s.enrollments.map (fun e =>
            if e.id == enrollment_id then
              { e with progress := progress, status := status }
            else e) })
    else (false, s)

/-! ## CertificationManager (src/main.py) -/

/-- Source: `CertificationManager.generate_certificate`.  `SELECT * FROM
enrollments WHERE id = ? AND status = 'completed'` must return a row, else
`None`; then `cert_number = f"CERT-{enrollment_id}-{timestamp}"` and the
INSERT into `certifications` fails (swallowed into `None`) when the UNIQUE
constraints on certificate_number or verification_code are violated.
`ts` stands for `datetime.now().strftime("%Y%m%d%H%M%S")`, `verify_code` for
`secrets.token_hex(8).upper()`, `issue_date` for
`datetime.now().isoformat()`. -/
def generate_certificate (s : DBState) (enrollment_id : Nat) (issued_by : String)
    (ts verify_code issue_date : String) : Option String × DBState :=
  match s.enrollments.find? (fun e =>
      e.id == enrollment_id && e.status == "completed") with
  | none => (none, s)
  | some _ =>
    let cert_number := "CERT-" ++ toString enrollment_id ++ "-" ++ ts
    if s.certifications.any (fun c =>
        c.certificate_number == cert_number || c.verification_code == verify_code)
    then (none, s)
    else
      let cert : Certification :=
        { id := s.nextCertId, enrollment_id := enrollment_id,
          certificate_number := cert_number, issue_date := issue_date,
          verification_code := verify_code, issued_by := issued_by }
      (some cert_number,
        { s with certifications := s.certifications ++ [cert],
                 nextCertId := s.nextCertId + 1 })

/-- Result row of `verify_certificate`: the certification joined with the
owning enrollment's student name and course title. -/
structure CertificateDetails where
  cert : Certification
  student_name : String
  course_title : String
  deriving DecidableEq

/-- Source: `CertificationManager.verify_certificate` — the SELECT joining
`certifications` with `enrollments`, `students` and `courses` on
`verification_code = ?`, first row if any. -/
def verify_certificate (s : DBState) (code : String) : Option CertificateDetails :=
  (s.certifications.find? (fun c => c.verification_code == code)).bind fun cert =>
  (s.enrollments.find? (fun e => e.id == cert.enrollment_id)).bind fun e =>
  (s.students.find? (fun st => st.id == e.student_id)).bind fun st =>
  (s.courses.find? (fun co => co.id == e.course_id)).map fun co =>
  { cert := cert, student_name := st.name, course_title := co.title }

/-! ## ReportingSystem (src/main.py) -/

/-- Floor of a rational, computed on the numerator/denominator pair
(`Int.fdiv` is floor division; `q.den > 0`). -/
def ratFloor (q : ℚ) : ℤ := q.num.fdiv q.den

/-- Python `round` to an integer: round-half-to-even (banker's rounding). -/
def roundHalfToEven (q : ℚ) : ℤ :=
  let f := ratFloor q
  if q - f < 1 / 2 then f
  else if 1 / 2 < q - f then f + 1
  else if f % 2 = 0 then f else f + 1

/-- Python `round(x, 2)`: round to 2 decimal places. -/
def round2 (q : ℚ) : ℚ := (roundHalfToEven (q * 100) : ℚ) / 100

/-- Source idiom `round(result['avg'], 2) if result['avg'] else 0.0`:
the SQL `AVG` is `NULL` (here `none`) when no rows contribute, and Python
truthiness also sends an average of exactly `0` to the `0.0` branch. -/
def pyRoundOrZero (o : Option ℚ) : ℚ :=
  match o with
  | none => 0
  | some a => if a = 0 then 0 else round2 a

/-- SQL `AVG` over a column: `NULL` on the empty bag, else the mean. -/
def listAvg (xs : List ℚ) : Option ℚ :=
  if xs.isEmpty then none else some (xs.sum / xs.length)

/-- The numeric fields of `ReportingSystem.get_course_statistics`
(`status_breakdown` is modelled separately by `statusBreakdown`). -/
structure CourseStats where
  total_students : Nat
  average_grade : ℚ
  average_progress : ℚ
  deriving DecidableEq

/-- Source: the `status_breakdown` dict of `get_course_statistics` —
`SELECT status, COUNT(*) FROM enrollments WHERE course_id = ? GROUP BY
status`, read as a count function. -/
def statusBreakdown (s : DBState) (course_id : Nat) (status : String) : Nat :=
  (s.enrollments.filter (fun e =>
    e.course_id == course_id && e.status == status)).length

/-- Source: `ReportingSystem.get_course_statistics` — count of the course's
enrollments; `AVG(grade)` over rows with `grade IS NOT NULL`;
`AVG(progress)` over all the course's rows; each average rounded to 2
decimals with the Python-truthiness default to `0.0`. -/
def get_course_statistics (s : DBState) (course_id : Nat) : CourseStats :=
  let es := s.enrollments.filter (fun e => e.course_id == course_id)
  { total_students := es.length
    average_grade := pyRoundOrZero (listAvg (es.filterMap (fun e => e.grade)))
    average_progress := pyRoundOrZero (listAvg (es.map (fun e => e.progress))) }

/-! ## Concrete store states used as inputs of witnesses and
counterexamples -/

/-- A sample student (row of `students`). -/
def alice : Student := { id := 1, name := "Alice", email := "alice@example.com" }

/-- A second sample student. -/
def bob : Student := { id := 2, name := "Bob", email := "bob@example.com" }

/-- A course with capacity 1. -/
def courseCap1 : Course :=
  { id := 1, title := "Lean Basics", max_students := 1, is_active := true }

/-- A course with the default capacity 30. -/
def courseCap30 : Course :=
  { id := 1, title := "Lean Basics", max_students := 30, is_active := true }

/-- An enrollment of Alice in course 1, status `enrolled`. -/
def enrAlice : Enrollment :=
  { id := 1, student_id := 1, course_id := 1, enrollment_date := "2026-01-01",
    expected_completion := some "2026-04-01", progress := 0,
    status := "enrolled", grade := none }

/-- Store holding two students and the capacity-1 course, no enrollments. -/
def stateEmptyCap1 : DBState :=
  { students := [alice, bob], courses := [courseCap1], enrollments := [],
    certifications := [], nextEnrollmentId := 1, nextCertId := 1 }

/-- Store where the capacity-1 course is full (Alice holds the one active
enrollment). -/
def stateFull : DBState :=
  { students := [alice, bob], courses := [courseCap1],
    enrollments := [enrAlice], certifications := [],
    nextEnrollmentId := 2, nextCertId := 1 }

/-- Store where Alice is already enrolled in the capacity-30 course, which
still has 29 free seats. -/
def stateDup : DBState :=
  { students := [alice, bob], courses := [courseCap30],
    enrollments := [enrAlice], certifications := [],
    nextEnrollmentId := 2, nextCertId := 1 }

/-- Store with a single `enrolled` enrollment, used for progress-update
witnesses. -/
def stateOneEnrollment : DBState := stateDup

/-- Step 1 of the over-capacity run: enroll Alice in the capacity-1
course. -/
def runStep1 : Option Nat × DBState :=
  enroll_student stateEmptyCap1 1 1 "2026-01-01" "2026-04-01"

/-- Step 2: complete Alice's enrollment (progress 100 derives status
`completed`), freeing her seat. -/
def runStep2 : Bool × DBState := update_progress runStep1.2 1 100

/-- Step 3: enroll Bob into the freed seat. -/
def runStep3 : Option Nat × DBState :=
  enroll_student runStep2.2 2 1 "2026-01-02" "2026-04-02"

/-- Step 4: set Alice's progress back to 50 — `update_progress` rewrites her
`completed` status to `in_progress` unconditionally. -/
def runStep4 : Bool × DBState := update_progress runStep3.2 1 50

/-- The store after the four steps: the capacity-1 course now holds two
active enrollments. -/
def stateOverCapacity : DBState := runStep4.2

/-- A completed enrollment of Alice in course 1. -/
def enrAliceDone : Enrollment :=
  { enrAlice with progress := 100, status := "completed" }

/-- An `enrolled` enrollment of Bob in course 1. -/
def enrBob : Enrollment :=
  { id := 2, student_id := 2, course_id := 1, enrollment_date := "2026-01-02",
    expected_completion := some "2026-04-02", progress := 0,
    status := "enrolled", grade := none }

/-- Store for the certification witnesses: Alice's enrollment is
`completed`, Bob's is still `enrolled`, no certificates yet. -/
def stateCert : DBState :=
  { students := [alice, bob], courses := [courseCap30],
    enrollments := [enrAliceDone, enrBob], certifications := [],
    nextEnrollmentId := 3, nextCertId := 1 }

/-- An already stored certificate whose certificate_number is the one
`generate_certificate` will regenerate for enrollment 1 at timestamp
`20260101120000`. -/
def certOld : Certification :=
  { id := 1, enrollment_id := 1,
    certificate_number := "CERT-1-20260101120000",
    issue_date := "2026-01-01T12:00:00",
    verification_code := "AAAA1111BBBB2222", issued_by := "Training System" }

/-- Store in which issuing a second certificate for enrollment 1 within the
same clock second collides on certificate_number. -/
def stateCollision : DBState :=
  { stateCert with certifications := [certOld], nextCertId := 2 }

/-- The statistics example of the spec: one course with grades
`{80, 90, null}` and progress `{100, 50, 0}`, plus an enrollment of another
course that must not be counted. -/
def stateStats : DBState :=
  { students := [alice], courses := [courseCap30],
    enrollments :=
      [ { id := 1, student_id := 1, course_id := 1, enrollment_date := "d",
          expected_completion := none, progress := 100,
          status := "completed", grade := some 80 },
        { id := 2, student_id := 2, course_id := 1, enrollment_date := "d",
          expected_completion := none, progress := 50,
          status := "in_progress", grade := some 90 },
        { id := 3, student_id := 3, course_id := 1, enrollment_date := "d",
          expected_completion := none, progress := 0,
          status := "enrolled", grade := none },
        { id := 4, student_id := 1, course_id := 2, enrollment_date := "d",
          expected_completion := none, progress := 10,
          status := "enrolled", grade := some 10 } ],
    certifications := [], nextEnrollmentId := 5, nextCertId := 1 }

/-! ## Claim theorems -/

/-- Claim C1, evaluated at the failing input.  The claim asserts that the
number of active enrollments of a course never exceeds `max_students` under
every operation, `update_progress` included.  The code violates it: in the
run `runStep1`–`runStep4` each operation succeeds, yet after
`update_progress` rewrites Alice's `completed` enrollment back to
`in_progress` the capacity-1 course holds two active enrollments. -/
theorem capacity_invariant_broken_by_update_progress :
    runStep1.1 = some 1 ∧ runStep2.1 = true ∧
    runStep3.1 = some 2 ∧ runStep4.1 = true ∧
    get_course stateOverCapacity 1 = some courseCap1 ∧
    courseCap1.max_students = 1 ∧
    activeEnrollmentCount stateOverCapacity 1 = 2 := by
  decide

/-- Claim C2: when a course exists and its raw available-seat count
(`max_students` minus the count of enrollments with status `enrolled` or
`in_progress`) is zero or negative, `enroll_student` fails and leaves the
store unchanged — no enrollment row is inserted. -/
theorem enroll_student_rejects_full_course (s : DBState) (c : Course)
    (sid cid : Nat) (now expd : String)
    (hc : get_course s cid = some c)
    (hfull : c.max_students - (activeEnrollmentCount s cid : Int) ≤ 0) :
    enroll_student s sid cid now expd = (none, s) := by
  have h : get_available_seats s cid ≤ 0 := by
    unfold get_available_seats
    rw [hc]
    exact max_le le_rfl hfull
  unfold enroll_student
  rw [if_pos h]

/-- Witness for C2: in `stateFull` the capacity-1 course is exactly full,
and enrolling Bob is refused without touching the store. -/
theorem enroll_student_rejects_full_course_witness :
    get_course stateFull 1 = some courseCap1 ∧
    courseCap1.max_students - (activeEnrollmentCount stateFull 1 : Int) ≤ 0 ∧
    enroll_student stateFull 2 1 "2026-02-01" "2026-05-02" = (none, stateFull) :=
  ⟨by decide, by decide,
    enroll_student_rejects_full_course stateFull courseCap1 2 1
      "2026-02-01" "2026-05-02" (by decide) (by decide)⟩

/-- Counterexample to claim C3 as stated: a duplicate (student, course)
enrollment with seats still free does fail and insert nothing, but the
failure is NOT a distinct `DuplicateEnrollment` error — the call returns
exactly the same generic `None` that the capacity-exceeded failure returns
(the UNIQUE-constraint violation is swallowed by `execute_query`). -/
theorem duplicate_enrollment_error_not_distinct :
    hasEnrollmentPair stateDup 1 1 = true ∧
    0 < get_available_seats stateDup 1 ∧
    enroll_student stateDup 1 1 "2026-02-01" "2026-05-02" = (none, stateDup) ∧
    get_available_seats stateFull 1 ≤ 0 ∧
    (enroll_student stateDup 1 1 "2026-02-01" "2026-05-02").1 =
      (enroll_student stateFull 2 1 "2026-02-01" "2026-05-02").1 := by
  decide

/-- Claim C3 as amended: when the (student, course) pair already has a row
and the course still has available seats, `enroll_student` fails — returning
the generic failure value `none`, not a distinct error kind — and creates no
new row, leaving the store unchanged. -/
theorem enroll_student_duplicate_returns_generic_none (s : DBState)
    (sid cid : Nat) (now expd : String)
    (hdup : hasEnrollmentPair s sid cid = true)
    (hseats : 0 < get_available_seats s cid) :
    enroll_student s sid cid now expd = (none, s) := by
  unfold enroll_student
  rw [if_neg (not_le.mpr hseats), if_pos hdup]

/-- Witness for the amended C3: Alice is already enrolled in the
capacity-30 course of `stateDup` and 29 seats remain, yet re-enrolling her
returns `none` and changes nothing. -/
theorem enroll_student_duplicate_returns_generic_none_witness :
    hasEnrollmentPair stateDup 1 1 = true ∧
    0 < get_available_seats stateDup 1 ∧
    enroll_student stateDup 1 1 "2026-03-01" "2026-06-01" = (none, stateDup) :=
  ⟨by decide, by decide,
    enroll_student_duplicate_returns_generic_none stateDup 1 1
      "2026-03-01" "2026-06-01" (by decide) (by decide)⟩

/-- Claim C5: a progress value outside `[0, 100]` is rejected by
`validate_progress` before any write — `update_progress` returns `False`
and the store (hence the enrollment's prior progress and status) is
unchanged. -/
theorem update_progress_rejects_out_of_range (s : DBState) (eid : Nat)
    (p : ℚ) (h : p < 0 ∨ 100 < p) :
    update_progress s eid p = (false, s) := by
  have hv : validate_progress p = false := by
    unfold validate_progress
    rcases h with h | h
    · simp [not_le.mpr h]
    · simp [not_le.mpr h]
  unfold update_progress
  rw [hv]
  simp

/-- Witness for C5 at progress `-1`. -/
theorem update_progress_rejects_out_of_range_witness :
    ((-1 : ℚ) < 0 ∨ (100 : ℚ) < -1) ∧
    update_progress stateOneEnrollment 1 (-1) = (false, stateOneEnrollment) :=
  ⟨Or.inl (by norm_num),
    update_progress_rejects_out_of_range stateOneEnrollment 1 (-1)
      (Or.inl (by norm_num))⟩

/-- Claim C4: for an existing enrollment and `0 ≤ p ≤ 100`,
`update_progress` succeeds, stores progress `p`, and derives the status —
`in_progress` when `0 < p < 100`, `completed` when `p ≥ 100` — whatever the
prior status was (no hypothesis restricts it). -/
theorem update_progress_derives_status (s : DBState) (eid : Nat) (p : ℚ)
    (e : Enrollment) (he : e ∈ s.enrollments) (hid : e.id = eid)
    (h0 : 0 ≤ p) (h1 : p ≤ 100) :
    (update_progress s eid p).1 = true ∧
    ∀ e2 ∈ (update_progress s eid p).2.enrollments, e2.id = eid →
      e2.progress = p ∧
      (0 < p → p < 100 → e2.status = "in_progress") ∧
      (100 ≤ p → e2.status = "completed") := by
  have hv : validate_progress p = true := by
    unfold validate_progress
    simp [h0, h1]
  have hany : s.enrollments.any (fun e2 => e2.id == eid) = true :=
    List.any_eq_true.mpr ⟨e, he, by simp [hid]⟩
  unfold update_progress
  rw [hv]
  simp only [Bool.not_true, Bool.false_eq_true, if_false]
  rw [if_pos hany]
  refine ⟨rfl, ?_⟩
  intro e2 hmem hid2
  rcases List.mem_map.mp hmem with ⟨a, _, rfl⟩
  by_cases hcase : (a.id == eid) = true
  · rw [if_pos hcase]
    refine ⟨rfl, ?_, ?_⟩
    · intro _ hlt
      simp only
      rw [if_neg (not_le.mpr hlt)]
    · intro hge
      simp only
      rw [if_pos hge]
  · rw [if_neg hcase] at hid2 ⊢
    exact absurd (by simp [hid2]) hcase

/-- Witness for C4 at progress 50 on an `enrolled` enrollment. -/
theorem update_progress_derives_status_witness :
    enrAlice ∈ stateOneEnrollment.enrollments ∧ enrAlice.id = 1 ∧
    (0 : ℚ) ≤ 50 ∧ (50 : ℚ) ≤ 100 ∧
    ((update_progress stateOneEnrollment 1 50).1 = true ∧
      ∀ e2 ∈ (update_progress stateOneEnrollment 1 50).2.enrollments,
        e2.id = 1 →
        e2.progress = 50 ∧
        ((0 : ℚ) < 50 → (50 : ℚ) < 100 → e2.status = "in_progress") ∧
        ((100 : ℚ) ≤ 50 → e2.status = "completed")) :=
  ⟨by decide, rfl, by decide, by decide,
    update_progress_derives_status stateOneEnrollment 1 50 enrAlice
      (by decide) rfl (by decide) (by decide)⟩

/-- Claim C10: a successful `update_progress` with progress exactly 0 sets
the status to `in_progress` — the derived status is never `enrolled`, so an
enrollment that was still `enrolled` moves to `in_progress`. -/
theorem update_progress_zero_yields_in_progress (s : DBState) (eid : Nat)
    (e : Enrollment) (he : e ∈ s.enrollments) (hid : e.id = eid) :
    (update_progress s eid 0).1 = true ∧
    ∀ e2 ∈ (update_progress s eid 0).2.enrollments, e2.id = eid →
      e2.progress = 0 ∧ e2.status = "in_progress" := by
  have hv : validate_progress (0 : ℚ) = true := by decide
  have hany : s.enrollments.any (fun e2 => e2.id == eid) = true :=
    List.any_eq_true.mpr ⟨e, he, by simp [hid]⟩
  unfold update_progress
  rw [hv]
  simp only [Bool.not_true, Bool.false_eq_true, if_false]
  rw [if_pos hany]
  refine ⟨rfl, ?_⟩
  intro e2 hmem hid2
  rcases List.mem_map.mp hmem with ⟨a, _, rfl⟩
  by_cases hcase : (a.id == eid) = true
  · rw [if_pos hcase]
    refine ⟨rfl, ?_⟩
    simp only
    rw [if_neg (by norm_num)]
  · rw [if_neg hcase] at hid2 ⊢
    exact absurd (by simp [hid2]) hcase

/-- Helper: `find?` returns the unique element of the list satisfying the
predicate (ids are primary keys, so row lookups have unique matches). -/
theorem find?_eq_some_of_unique {α : Type} (p : α → Bool) :
    ∀ (l : List α) (e : α), e ∈ l → p e = true →
      (∀ x ∈ l, p x = true → x = e) → l.find? p = some e := by
  intro l
  induction l with
  | nil => intro e he _ _; cases he
  | cons a t ih =>
    intro e he hpe huniq
    by_cases hpa : p a = true
    · rw [List.find?_cons_of_pos _ hpa]
      exact congrArg some (huniq a (List.mem_cons_self a t) hpa)
    · rw [List.find?_cons_of_neg _ hpa]
      rcases List.mem_cons.mp he with rfl | hmem
      · exact absurd hpe hpa
      · exact ih e hmem hpe fun x hx hpx =>
          huniq x (List.mem_cons_of_mem a hx) hpx

/-- Helper: a `find?` over an append skips a first part with no match. -/
theorem find?_append_of_none {α : Type} (p : α → Bool) :
    ∀ (l1 l2 : List α), l1.find? p = none →
      (l1 ++ l2).find? p = l2.find? p := by
  intro l1
  induction l1 with
  | nil => intro l2 _; rfl
  | cons a t ih =>
    intro l2 h
    rw [List.find?_eq_none] at h
    have hpa : ¬p a = true := h a (List.mem_cons_self a t)
    rw [List.cons_append, List.find?_cons_of_neg _ hpa]
    exact ih l2 (List.find?_eq_none.mpr fun x hx => h x (List.mem_cons_of_mem a hx))

/-- The certification row that `generate_certificate` inserts on success
(fields as bound in the source: the formatted cert_number, the supplied
verify_code, issue_date and issued_by, and the fresh AUTOINCREMENT id). -/
def newCertification (s : DBState) (eid : Nat) (ib ts vc d : String) :
    Certification :=
  { id := s.nextCertId, enrollment_id := eid,
    certificate_number := "CERT-" ++ toString eid ++ "-" ++ ts,
    issue_date := d, verification_code := vc, issued_by := ib }

/-- Helper: `verify_certificate` resolves once the four row lookups of its
join are known. -/
theorem verify_certificate_resolves (s : DBState) (vc : String)
    (C : Certification) (e : Enrollment) (st : Student) (co : Course)
    (hCfind : s.certifications.find? (fun c => c.verification_code == vc) = some C)
    (hEfind : s.enrollments.find? (fun x => x.id == C.enrollment_id) = some e)
    (hSfind : s.students.find? (fun x => x.id == e.student_id) = some st)
    (hCofind : s.courses.find? (fun x => x.id == e.course_id) = some co) :
    verify_certificate s vc =
      some { cert := C, student_name := st.name, course_title := co.title } := by
  unfold verify_certificate
  rw [hCfind, Option.some_bind, hEfind, Option.some_bind, hSfind,
    Option.some_bind, hCofind, Option.map_some']

/-- Claim C6: issuing a certificate for an enrollment whose status is not
`completed` fails and writes nothing; issuing for a `completed` enrollment
succeeds (when the generated numbers are fresh, as with the secure random
source) and the verification code then resolves via `verify_certificate` to
a record carrying the owning student's name and course's title.  The
`Nodup` hypotheses are the primary-key uniqueness of the tables. -/
theorem certificate_issue_and_verify :
    (∀ (s : DBState) (eid : Nat) (e : Enrollment) (ib ts vc d : String),
      e ∈ s.enrollments → e.id = eid → e.status ≠ "completed" →
      (s.enrollments.map Enrollment.id).Nodup →
      generate_certificate s eid ib ts vc d = (none, s)) ∧
    (∀ (s : DBState) (eid : Nat) (e : Enrollment) (st : Student) (co : Course)
        (ib ts vc d : String),
      e ∈ s.enrollments → e.id = eid → e.status = "completed" →
      st ∈ s.students → st.id = e.student_id →
      co ∈ s.courses → co.id = e.course_id →
      (s.enrollments.map Enrollment.id).Nodup →
      (s.students.map Student.id).Nodup →
      (s.courses.map Course.id).Nodup →
      (∀ c ∈ s.certifications,
        c.certificate_number ≠ "CERT-" ++ toString eid ++ "-" ++ ts ∧
        c.verification_code ≠ vc) →
      (generate_certificate s eid ib ts vc d).1 =
        some ("CERT-" ++ toString eid ++ "-" ++ ts) ∧
      verify_certificate (generate_certificate s eid ib ts vc d).2 vc =
        some { cert := newCertification s eid ib ts vc d,
               student_name := st.name, course_title := co.title }) := by
  constructor
  · intro s eid e ib ts vc d he hid hstat hnodup
    have hfind : s.enrollments.find?
        (fun x => x.id == eid && x.status == "completed") = none := by
      rw [List.find?_eq_none]
      intro x hx
      simp only [Bool.and_eq_true, beq_iff_eq, not_and]
      intro hxid hxstat
      have hxe : x = e :=
        List.inj_on_of_nodup_map hnodup hx he (by rw [hxid, hid])
      exact hstat (hxe ▸ hxstat)
    unfold generate_certificate
    rw [hfind]
  · intro s eid e st co ib ts vc d he hid hstat hst hstid hco hcoid
      hnE hnS hnC hfresh
    have hfind : s.enrollments.find?
        (fun x => x.id == eid && x.status == "completed") = some e := by
      apply find?_eq_some_of_unique _ _ _ he (by simp [hid, hstat])
      intro x hx hpx
      simp only [Bool.and_eq_true, beq_iff_eq] at hpx
      exact List.inj_on_of_nodup_map hnE hx he (by rw [hpx.1, hid])
    have hany : (s.certifications.any fun c =>
        c.certificate_number == "CERT-" ++ toString eid ++ "-" ++ ts ||
        c.verification_code == vc) = false := by
      rw [List.any_eq_false]
      intro c hc
      simp only [Bool.or_eq_true, beq_iff_eq, not_or]
      exact hfresh c hc
    have hgen : generate_certificate s eid ib ts vc d =
        (some ("CERT-" ++ toString eid ++ "-" ++ ts),
          { s with
            certifications := s.certifications ++ [newCertification s eid ib ts vc d],
            nextCertId := s.nextCertId + 1 }) := by
      simp only [generate_certificate, newCertification, hfind, hany]
      simp
    rw [hgen]
    refine ⟨rfl, ?_⟩
    apply verify_certificate_resolves _ _ _ e st co
    · show (s.certifications ++ [newCertification s eid ib ts vc d]).find?
          (fun c => c.verification_code == vc) = some _
      rw [find?_append_of_none _ _ _
        (List.find?_eq_none.mpr fun c hc => by simp [(hfresh c hc).2])]
      rw [List.find?_cons_of_pos _ (by simp [newCertification])]
    · show s.enrollments.find? (fun x => x.id == eid) = some e
      apply find?_eq_some_of_unique _ _ _ he (by simp [hid])
      intro x hx hpx
      simp only [beq_iff_eq] at hpx
      exact List.inj_on_of_nodup_map hnE hx he (by rw [hpx, hid])
    · show s.students.find? (fun x => x.id == e.student_id) = some st
      apply find?_eq_some_of_unique _ _ _ hst (by simp [hstid])
      intro x hx hpx
      simp only [beq_iff_eq] at hpx
      exact List.inj_on_of_nodup_map hnS hx hst (by rw [hpx, hstid])
    · show s.courses.find? (fun x => x.id == e.course_id) = some co
      apply find?_eq_some_of_unique _ _ _ hco (by simp [hcoid])
      intro x hx hpx
      simp only [beq_iff_eq] at hpx
      exact List.inj_on_of_nodup_map hnC hx hco (by rw [hpx, hcoid])

/-- Witness for C6: in `stateCert`, issuing for Bob's `enrolled` enrollment
fails with no write, while issuing for Alice's `completed` enrollment
succeeds and the verification code resolves to Alice's name and the
course's title. -/
theorem certificate_issue_and_verify_witness :
    (enrBob ∈ stateCert.enrollments ∧ enrBob.id = 2 ∧
      enrBob.status ≠ "completed" ∧
      (stateCert.enrollments.map Enrollment.id).Nodup ∧
      generate_certificate stateCert 2 "Training System" "20260101120000"
        "CCCC3333DDDD4444" "2026-01-01T12:00:01" = (none, stateCert)) ∧
    (enrAliceDone ∈ stateCert.enrollments ∧ enrAliceDone.id = 1 ∧
      enrAliceDone.status = "completed" ∧
      alice ∈ stateCert.students ∧ alice.id = enrAliceDone.student_id ∧
      courseCap30 ∈ stateCert.courses ∧
      courseCap30.id = enrAliceDone.course_id ∧
      (∀ c ∈ stateCert.certifications,
        c.certificate_number ≠ "CERT-" ++ toString 1 ++ "-" ++ "20260101120000" ∧
        c.verification_code ≠ "CCCC3333DDDD4444") ∧
      (generate_certificate stateCert 1 "Training System" "20260101120000"
          "CCCC3333DDDD4444" "2026-01-01T12:00:01").1 =
        some ("CERT-" ++ toString 1 ++ "-" ++ "20260101120000") ∧
      verify_certificate (generate_certificate stateCert 1 "Training System"
          "20260101120000" "CCCC3333DDDD4444" "2026-01-01T12:00:01").2
          "CCCC3333DDDD4444" =
        some { cert := { id := 1, enrollment_id := 1,
                         certificate_number :=
                           "CERT-" ++ toString 1 ++ "-" ++ "20260101120000",
                         issue_date := "2026-01-01T12:00:01",
                         verification_code := "CCCC3333DDDD4444",
                         issued_by := "Training System" },
               student_name := alice.name, course_title := courseCap30.title }) :=
  ⟨⟨by decide, rfl, by decide, by decide,
    certificate_issue_and_verify.1 stateCert 2 enrBob "Training System"
      "20260101120000" "CCCC3333DDDD4444" "2026-01-01T12:00:01"
      (by decide) rfl (by decide) (by decide)⟩,
   by
    have h := certificate_issue_and_verify.2 stateCert 1 enrAliceDone alice
      courseCap30 "Training System" "20260101120000" "CCCC3333DDDD4444"
      "2026-01-01T12:00:01" (by decide) rfl rfl (by decide) rfl
      (by decide) rfl (by decide) (by decide) (by decide) (by decide)
    exact ⟨by decide, rfl, rfl, by decide, rfl, by decide, rfl, by decide,
      h.1, h.2⟩⟩

/-- Claim C7, evaluated at the failing input.  In `stateCollision` the
enrollment is `completed` and the store already holds a certificate whose
certificate_number equals the one regenerated for enrollment 1 in the same
clock second; `generate_certificate` fails at once — the swallowed UNIQUE
violation becomes a plain `None` — with no retry and no
`CertificateGenerationFailed` distinction, although the fresh verification
code differs from the stored one. -/
theorem certificate_collision_fails_without_retry :
    enrAliceDone ∈ stateCollision.enrollments ∧
    enrAliceDone.status = "completed" ∧
    certOld ∈ stateCollision.certifications ∧
    certOld.certificate_number = "CERT-" ++ toString 1 ++ "-" ++ "20260101120000" ∧
    certOld.verification_code ≠ "CCCC3333DDDD4444" ∧
    generate_certificate stateCollision 1 "Training System" "20260101120000"
      "CCCC3333DDDD4444" "2026-01-01T12:00:01" = (none, stateCollision) := by
  decide

/-- Average as the spec words it for `course_statistics`: `0.0` when no
values exist, else the mean rounded to 2 decimal places. -/
def specAverage (xs : List ℚ) : ℚ :=
  if xs = [] then 0 else round2 (xs.sum / xs.length)

/-- The rows of the `enrollments` table belonging to a course. -/
def courseEnrollments (s : DBState) (course_id : Nat) : List Enrollment :=
  s.enrollments.filter (fun e => e.course_id == course_id)

/-- Rounding zero to two decimals gives zero. -/
theorem round2_zero : round2 0 = 0 := by
  unfold round2 roundHalfToEven ratFloor
  norm_num

/-- The Python-truthiness average of the source equals the spec's average:
the only divergence candidate — a non-null average of exactly `0` skipping
the rounding — is invisible because rounding `0` gives `0`. -/
theorem pyRoundOrZero_listAvg (xs : List ℚ) :
    pyRoundOrZero (listAvg xs) = specAverage xs := by
  by_cases h : xs = []
  · subst h
    rfl
  · have havg : listAvg xs = some (xs.sum / (xs.length : ℚ)) := by
      unfold listAvg
      rw [if_neg (by simpa using h)]
    rw [havg]
    show (if xs.sum / (xs.length : ℚ) = 0 then 0
      else round2 (xs.sum / (xs.length : ℚ))) = _
    unfold specAverage
    rw [if_neg h]
    by_cases h0 : xs.sum / (xs.length : ℚ) = 0
    · rw [if_pos h0, h0, round2_zero]
    · rw [if_neg h0]

/-- Claim C8: `get_course_statistics` returns the count of the course's
enrollment rows, the mean of the non-null grades (0.0 when none) and the
mean of all the course's progress values (0.0 when none), rounded to 2
decimals; on the spec's example — grades `{80, 90, null}`, progress
`{100, 50, 0}`, with a foreign-course row that must be ignored — it returns
85.0, 50.0 and 3. -/
theorem course_statistics_correct :
    (∀ s course_id, get_course_statistics s course_id =
      { total_students := (courseEnrollments s course_id).length,
        average_grade :=
          specAverage ((courseEnrollments s course_id).filterMap (fun e => e.grade)),
        average_progress :=
          specAverage ((courseEnrollments s course_id).map (fun e => e.progress)) }) ∧
    get_course_statistics stateStats 1 =
      { total_students := 3, average_grade := 85, average_progress := 50 } := by
  constructor
  · intro s course_id
    simp only [get_course_statistics, courseEnrollments, pyRoundOrZero_listAvg]
  · simp [get_course_statistics, stateStats, listAvg, pyRoundOrZero, round2,
      roundHalfToEven, ratFloor, List.filter, List.filterMap]
    norm_num

/-- Claim C9: every string the CPF validator accepts has its 10th and 11th
stripped digits equal to the checksum digits recomputed from the preceding
digits, and every string whose 11 stripped digits are all identical is
rejected. -/
theorem validate_national_id_checksum :
    (∀ s, validate_cpf s = true →
      (cpfStrip s).getD 9 0 = cpfDigit1 (cpfStrip s) ∧
      (cpfStrip s).getD 10 0 = cpfDigit2 (cpfStrip s)) ∧
    (∀ s, (cpfStrip s).length = 11 →
      (∀ d ∈ cpfStrip s, d = (cpfStrip s).headD 0) →
      validate_cpf s = false) := by
  constructor
  · intro s h
    simp only [validate_cpf] at h
    split_ifs at h with h1 h2
    exact ⟨not_ne_iff.mp h2, by simpa using h⟩
  · intro s hlen hsame
    have hall : (cpfStrip s).all (fun d => d == (cpfStrip s).headD 0) = true :=
      List.all_eq_true.mpr (fun d hd => by simpa using hsame d hd)
    simp only [validate_cpf, hall, Bool.or_true]
    rw [if_pos trivial]

/-- Witness for C9: the valid CPF `11144477735` is accepted and its check
digits round-trip; the all-identical string `11111111111` is rejected. -/
theorem validate_national_id_checksum_witness :
    validate_cpf "11144477735" = true ∧
    ((cpfStrip "11144477735").getD 9 0 = cpfDigit1 (cpfStrip "11144477735") ∧
      (cpfStrip "11144477735").getD 10 0 = cpfDigit2 (cpfStrip "11144477735")) ∧
    (cpfStrip "11111111111").length = 11 ∧
    (∀ d ∈ cpfStrip "11111111111", d = (cpfStrip "11111111111").headD 0) ∧
    validate_cpf "11111111111" = false :=
  ⟨by decide, validate_national_id_checksum.1 "11144477735" (by decide),
    by decide, by decide,
    validate_national_id_checksum.2 "11111111111" (by decide) (by decide)⟩

/-- Witness for C10: Alice's enrollment has status `enrolled`, and updating
its progress to 0 succeeds and moves it to `in_progress`. -/
theorem update_progress_zero_yields_in_progress_witness :
    enrAlice ∈ stateOneEnrollment.enrollments ∧ enrAlice.id = 1 ∧
    enrAlice.status = "enrolled" ∧
    ((update_progress stateOneEnrollment 1 0).1 = true ∧
      ∀ e2 ∈ (update_progress stateOneEnrollment 1 0).2.enrollments,
        e2.id = 1 → e2.progress = 0 ∧ e2.status = "in_progress") :=
  ⟨by decide, rfl, rfl,
    update_progress_zero_yields_in_progress stateOneEnrollment 1 enrAlice
      (by decide) rfl⟩

end TMS
